import Mathlib

/-!
Shallow embedding of the wallet-count resolution and job-parameter
reconciliation logic of the `WT_Scheduler_Frontend` repository
(`app/api/scheduler.py`, `app/services/scheduler.py`, `app/services/cache.py`,
`app/models/job.py`), together with theorems settling the frozen claims
about it.

Modelling conventions:
* JSON values as produced by Python's `json` module are modelled by the
  inductive type `Json`.  Python `dict`s are modelled as association lists
  `List (String × Json)`; the lists produced by a real JSON parse have
  pairwise distinct keys, and insertion order is preserved (as in Python).
  Python numbers are modelled as `jint : Int` (Python `int`) and
  `jfloat : ℚ` (Python `float`s are binary rationals).  A JSON `true`/`false`
  parses to a Python `bool`, which Python treats as a subtype of `int`
  (`isinstance(True, int)` holds and `int(True) = 1`); the embedding keeps
  it as a separate constructor and reproduces the subtyping in the
  branches that test `isinstance(data, (int, float))`.
  The non-standard tokens `NaN`/`Infinity` that Python's parser accepts are
  modelled as a failed parse: in both resolver versions they end in the
  same fallback path as a parse failure (an exception while converting),
  so the observable result agrees.
* An outbound HTTP request is modelled by its outcome `FetchOutcome`:
  either `failure msg` (a raised network/timeout exception carrying the
  message used for the error string) or `response r` where `r` records the
  status code, the JSON parse of the body (`none` when the body is not
  valid JSON) and the raw body text.
* Machine-level concerns (actual sockets, async scheduling) are outside
  the embedding; each Python function is translated branch by branch into
  a total Lean function of the outcomes of its outbound calls.
-/

/-- A parsed JSON value (a Python value produced by `json.loads`). -/
inductive Json where
  | jnull : Json
  | jbool (b : Bool) : Json
  | jint (n : Int) : Json
  | jfloat (q : ℚ) : Json
  | jstr (s : String) : Json
  | jarr (elems : List Json) : Json
  | jobj (fields : List (String × Json)) : Json
  deriving Repr

/-- First-match lookup in an association list; on the duplicate-free lists
that model Python dicts this is exactly `dict.__getitem__` /
`'k' in dict`. -/
def lookupField (k : String) : List (String × Json) → Option Json
  | [] => none
  | (k2, v) :: rest => if k2 = k then some v else lookupField k rest

/-- Python `str.isdigit()` restricted to ASCII: true iff the string is
nonempty and every character is a decimal digit. -/
def pyIsdigit (s : String) : Bool :=
  !s.data.isEmpty && s.data.all Char.isDigit

/-- Decimal value of a digit sequence (most significant first). -/
def digitsVal (l : List Char) : Nat :=
  l.foldl (fun acc c => acc * 10 + (c.toNat - 48)) 0

/-- `int(s)` for a string that passed `isdigit`: its decimal value. -/
def digitStringVal (s : String) : Nat :=
  digitsVal s.data

/-- Truncation toward zero, Python's `int()` applied to a float. -/
def pyTrunc (q : ℚ) : Int :=
  if 0 ≤ q then ⌊q⌋ else ⌈q⌉

/-- Parser for Python's integer-literal digit part: `digit (["_"] digit)*`
(single underscores allowed between digits), accumulating the value. -/
def pyDigitPart (acc : Nat) : List Char → Option Nat
  | [] => some acc
  | c :: cs =>
    if c.isDigit then pyDigitPart (acc * 10 + (c.toNat - 48)) cs
    else if c = '_' then
      match cs with
      | [] => none
      | d :: cs2 =>
        if d.isDigit then pyDigitPart (acc * 10 + (d.toNat - 48)) cs2 else none
    else none

/-- Digit part must start with a digit. -/
def pyDigitStart : List Char → Option Nat
  | [] => none
  | c :: cs => if c.isDigit then pyDigitPart (c.toNat - 48) cs else none

/-- Python `str.strip()` (ASCII whitespace): drop whitespace from both
ends. -/
def pyStrip (s : String) : String :=
  ⟨((s.data.dropWhile Char.isWhitespace).reverse.dropWhile Char.isWhitespace).reverse⟩

/-- Python `int(s)` on an already-stripped string: optional sign followed by
a nonempty digit part (possibly with single underscores between digits);
`none` models a raised `ValueError`. -/
def pyIntParse (s : String) : Option Int :=
  match s.data with
  | '+' :: rest => (pyDigitStart rest).map Int.ofNat
  | '-' :: rest => (pyDigitStart rest).map (fun n => -(n : Int))
  | l => (pyDigitStart l).map Int.ofNat

/-- The shared body normalization of both `get_wallet_count` versions
(`app/api/scheduler.py` lines 29-39 and `app/services/scheduler.py`
lines 37-47), branch by branch:

* `isinstance(data, dict) and 'count' in data` → `data.get("count", d)`;
  since the key is present the default `d` (0 in the API route, 1000 in
  the service) is unreachable and the stored value is returned as-is;
* `isinstance(data, dict) and len(data) == 1` → `list(data.values())[0]`,
  the single stored value as-is;
* `isinstance(data, (int, float))` → `int(data)`; Python `bool` is a
  subtype of `int`, so `true`/`false` land here as 1/0;
* `isinstance(data, str) and data.isdigit()` → `int(data)`;
* otherwise → the fallback constant 1000. -/
def normalizeJson (data : Json) : Json :=
  match data with
  | .jobj fields =>
    match lookupField "count" fields with
    | some v => v
    | none =>
      match fields with
      | [(_, v)] => v
      | _ => .jint 1000
  | .jbool b => .jint (if b then 1 else 0)
  | .jint n => .jint n
  | .jfloat q => .jint (pyTrunc q)
  | .jstr s => if pyIsdigit s then .jint (digitStringVal s) else .jint 1000
  | _ => .jint 1000

/-- The outcome of one outbound HTTP request: status code, the JSON parse
of the body (`none` when parsing raises), and the raw body text. -/
structure HttpResponse where
  status : Nat
  jsonBody : Option Json
  text : String
  deriving Repr

/-- Either a raised network/timeout exception (with its message) or a
received response. -/
inductive FetchOutcome where
  | failure (msg : String) : FetchOutcome
  | response (r : HttpResponse) : FetchOutcome
  deriving Repr

/-- `SchedulerService.get_wallet_count` (`app/services/scheduler.py`
lines 27-57): on a 200 response, normalize the parsed body; a JSON parse
error propagates to the outer `except` which returns the fallback 1000;
any non-200 status or network error also yields 1000.  The Python
annotation says `-> int` but is not enforced: the dict branches return the
stored value unchanged, so the result is modelled as a `Json` value. -/
def SchedulerService.get_wallet_count (o : FetchOutcome) : Json :=
  match o with
  | .failure _ => .jint 1000
  | .response r =>
    if r.status = 200 then
      match r.jsonBody with
      | none => .jint 1000
      | some data => normalizeJson data
    else .jint 1000

/-- The structured dict returned by the `/wallets/count` route. -/
structure WalletCountResult where
  success : Bool
  count : Json
  source : String
  error : Option String
  deriving Repr

/-- The route handler `get_wallet_count` (`app/api/scheduler.py`
lines 18-72): on a 200 response, normalize the parsed body; if the JSON
parse raises, fall back to `int(response.text.strip())`, and to 1000 when
that raises too; every 200 response reports `success=True` and
`source="wallet-api"`.  A non-200 status or a network error reports
`success=False`, `count=1000`, `source="fallback"` and an error string. -/
def SchedulerApi.get_wallet_count (o : FetchOutcome) : WalletCountResult :=
  match o with
  | .failure msg =>
    { success := false, count := .jint 1000, source := "fallback", error := some msg }
  | .response r =>
    if r.status = 200 then
      let count : Json :=
        match r.jsonBody with
        | some data => normalizeJson data
        | none =>
          match pyIntParse (pyStrip r.text) with
          | some n => .jint n
          | none => .jint 1000
      { success := true, count := count, source := "wallet-api", error := none }
    else
      { success := false, count := .jint 1000, source := "fallback"
        error := some ("API returned HTTP " ++ toString r.status) }

/-- The numeric view a Python value presents to `==`: `bool` and `int`
coerce to the same number line as `float` (`True == 1`, `1 == 1.0`). -/
def pyNum : Json → Option ℚ
  | .jbool b => some (if b then 1 else 0)
  | .jint n => some (n : ℚ)
  | .jfloat q => some q
  | _ => none

mutual

/-- Python `==` on parsed JSON values: numbers (including booleans)
compare by numeric value across types; strings, lists and dicts compare
structurally (dicts as key-value maps, ignoring entry order); everything
else is equal only to itself. -/
def pyEq : Json → Json → Bool
  | .jarr xs, .jarr ys => pyEqList xs ys
  | .jobj xs, .jobj ys => xs.length == ys.length && pyEqFields xs ys
  | a, b =>
    match pyNum a, pyNum b with
    | some x, some y => decide (x = y)
    | _, _ =>
      match a, b with
      | .jnull, .jnull => true
      | .jstr s, .jstr t => s == t
      | _, _ => false

/-- Pointwise Python `==` on lists of equal length. -/
def pyEqList : List Json → List Json → Bool
  | [], [] => true
  | x :: xs, y :: ys => pyEq x y && pyEqList xs ys
  | _, _ => false

/-- Every entry of the first dict has a matching key in the second with a
`pyEq` value; combined with equal lengths (and the duplicate-free keys of
parsed dicts) this is Python dict equality. -/
def pyEqFields : List (String × Json) → List (String × Json) → Bool
  | [], _ => true
  | (k, v) :: rest, ys => pyEqMem k v ys && pyEqFields rest ys

/-- Some entry of the dict has key `k` and a value `pyEq` to `v`. -/
def pyEqMem (k : String) (v : Json) : List (String × Json) → Bool
  | [] => false
  | (k2, v2) :: rest => (k == k2 && pyEq v v2) || pyEqMem k v rest

end

/-- The value is a Python non-negative `int`. -/
def Json.nonNegInt : Json → Bool
  | .jint n => decide (0 ≤ n)
  | _ => false

/-- Body shapes whose normalization can pass a value through that is not
a non-negative integer: objects (whose `count`/single field value is
returned as-is) and negative bare numbers (truncated but still possibly
negative). -/
def Json.passThroughRisk : Json → Bool
  | .jobj _ => true
  | .jint n => decide (n < 0)
  | .jfloat q => decide (q < 0)
  | _ => false

/-- Observable state around the resolver: the stream of outcomes the
network will deliver to successive outbound GETs, the `CacheService`
key-value store (key, value, expiry instant), the current time, and a
counter of outbound HTTP calls issued so far. -/
structure ResolverWorld where
  pending : List FetchOutcome
  cache : List (String × Json × Nat)
  now : Nat
  httpCalls : Nat
  deriving Repr

/-- One invocation of `SchedulerService.get_wallet_count` as a state
transformer.  The Python body performs exactly one `client.get` (its
outcome is the head of `pending`; an exhausted stream behaves as a
network failure) and contains no retry loop and no reference to
`CacheService` or to the `cached` decorator of `app/services/cache.py`,
so `cache` and `now` are threaded through unchanged. -/
def serviceResolveRun (w : ResolverWorld) : Json × ResolverWorld :=
  match w.pending with
  | [] =>
    (SchedulerService.get_wallet_count (.failure "no outcome"),
     { w with httpCalls := w.httpCalls + 1 })
  | o :: rest =>
    (SchedulerService.get_wallet_count o,
     { w with pending := rest, httpCalls := w.httpCalls + 1 })

/-- `JobCreateRequest` (`app/models/job.py` lines 33-42).  The
`num_wallets` field is declared `int` with default 0, but pydantic does
not validate attribute assignment, so the route's overwrite can store any
value the resolver produced; the field is therefore modelled as `Json`. -/
structure JobCreateRequest where
  id : String
  name : String
  network : String
  analysis_type : String
  schedule : String
  description : Option String := none
  num_wallets : Json := .jint 0
  days_back : ℚ := 1
  deriving Repr

/-- The JSON payload embedded in a scheduler job's HTTP target
(`app/services/scheduler.py` lines 109-114). -/
structure JobPayload where
  network : String
  analysis_type : String
  num_wallets : Json
  days_back : ℚ
  deriving Repr

/-- `SchedulerService.create_job`, live path (`app/services/scheduler.py`
lines 94-135): resolve the wallet count afresh (`walletFetch` is the
outcome of that GET) and build the payload with it — the requested
`job_request.num_wallets` is ignored.  `storeOk` models whether
`client.create_job` succeeded; when it raises, nothing is stored and the
`except` branch returns `False`.  Result: the returned boolean and the
payload submitted to the job store (if any). -/
def SchedulerService.create_job (req : JobCreateRequest) (walletFetch : FetchOutcome)
    (storeOk : Bool) : Bool × Option JobPayload :=
  let payload : JobPayload :=
    { network := req.network
      analysis_type := req.analysis_type
      num_wallets := SchedulerService.get_wallet_count walletFetch
      days_back := req.days_back }
  if storeOk then (true, some payload) else (false, none)

/-- A route handler result: either a returned value or a raised
`HTTPException` with its status and detail. -/
inductive ApiResult (α : Type) where
  | ok (a : α) : ApiResult α
  | httpError (status : Nat) (detail : String) : ApiResult α
  deriving Repr

/-- The success dict returned by the `POST /jobs` route. -/
structure CreateJobResult where
  success : Bool
  wallet_count : Json
  wallet_source : String
  deriving Repr

/-- The route handler `create_job` (`app/api/scheduler.py` lines 100-127):
resolve the wallet count via the route-level `get_wallet_count`
(`walletFetch1`), overwrite `job_request.num_wallets` with it, then call
`SchedulerService.create_job`, which resolves again (`walletFetch2`).
Returns the handler result and the payload submitted to the job store. -/
def SchedulerApi.create_job (req : JobCreateRequest)
    (walletFetch1 walletFetch2 : FetchOutcome) (storeOk : Bool) :
    ApiResult CreateJobResult × Option JobPayload :=
  let wcd := SchedulerApi.get_wallet_count walletFetch1
  let req2 := { req with num_wallets := wcd.count }
  let res := SchedulerService.create_job req2 walletFetch2 storeOk
  if res.1 then
    (.ok { success := true, wallet_count := wcd.count, wallet_source := wcd.source },
     res.2)
  else
    (.httpError 400 "Failed to create job", res.2)

/-- A call issued to the scheduler service (the JobStore wrapper), in
order of issue. -/
inductive JobStoreCall where
  | getJob (id : String) : JobStoreCall
  | updateSchedule (id : String) (cron : String) : JobStoreCall
  deriving Repr

/-- Accumulating splitter behind `pySplitWs`: `acc` holds the reversed
characters of the token being read. -/
def pyTokensAux (acc : List Char) : List Char → List (List Char)
  | [] => if acc.isEmpty then [] else [acc.reverse]
  | c :: cs =>
    if c.isWhitespace then
      if acc.isEmpty then pyTokensAux [] cs
      else acc.reverse :: pyTokensAux [] cs
    else pyTokensAux (c :: acc) cs

/-- Python `str.split()` with no separator: split on runs of whitespace,
ignoring leading and trailing whitespace, producing only nonempty
tokens. -/
def pySplitWs (s : String) : List String :=
  (pyTokensAux [] s.data).map (fun l => ⟨l⟩)

/-- The route handler `update_job_schedule` (`app/api/scheduler.py`
lines 129-161): a missing or empty (falsy) `schedule` is rejected with
400; a cron string whose `strip().split()` does not have exactly 5 tokens
is rejected with 400; only then is the scheduler service consulted
(`get_job`, then `update_job_schedule`); a missing job yields 404 and a
store failure 400.  Returns the handler result together with the
scheduler-service calls issued, in order. -/
def SchedulerApi.update_job_schedule (jobId : String) (schedule : Option String)
    (jobExists : Bool) (storeOk : Bool) :
    ApiResult String × List JobStoreCall :=
  match schedule with
  | none => (.httpError 400 "Schedule is required", [])
  | some s =>
    if s = "" then (.httpError 400 "Schedule is required", [])
    else if (pySplitWs (pyStrip s)).length ≠ 5 then
      (.httpError 400 "Cron expression must have exactly 5 parts", [])
    else if !jobExists then
      (.httpError 404 "Job not found", [.getJob jobId])
    else if !storeOk then
      (.httpError 400 "Failed to update job schedule",
       [.getJob jobId, .updateSchedule jobId s])
    else
      (.ok ("Job " ++ jobId ++ " schedule updated to: " ++ s),
       [.getJob jobId, .updateSchedule jobId s])

/-- `dict.get(k, d)` on a parsed JSON object. -/
def dictGet (k : String) (fields : List (String × Json)) (d : Json) : Json :=
  (lookupField k fields).getD d

/-- The `result` sub-dict built by `run_job_now` from the direct call's
200 JSON body. -/
structure RunResultData where
  transactions : Json
  tokens : Json
  eth_value : Json
  wallets_used : Json
  deriving Repr

/-- The dict returned by the `POST /jobs/{job_id}/run` route. -/
structure RunNowResult where
  success : Bool
  message : String
  result : Option RunResultData
  wallets_used : Option Json
  deriving Repr

/-- The route handler `run_job_now` (`app/api/scheduler.py` lines
163-232): resolve the wallet count (`walletFetch`), trigger the job via
the scheduler service (`schedulerSuccess` is its returned boolean — the
service catches its own exceptions and returns `False`), and, when the
job exists (`jobFound`), also POST to the crypto function directly
(`direct` is that call's outcome).  Inside the `try` around the direct
call: a 200 response has its body parsed and `result.get(...)` applied —
when the body is not valid JSON, or not a dict (so `.get` raises
`AttributeError`), the `except` branch reports the scheduler's success;
a non-200 response likewise reports the scheduler's success; only a 200
response with a JSON-dict body reports `success=True` unconditionally. -/
def SchedulerApi.run_job_now (jobId : String) (walletFetch : FetchOutcome)
    (schedulerSuccess : Bool) (jobFound : Bool) (direct : FetchOutcome) :
    RunNowResult :=
  let cnt := (SchedulerApi.get_wallet_count walletFetch).count
  if jobFound then
    match direct with
    | .failure _ =>
      { success := schedulerSuccess
        message := "Job " ++ jobId ++ " triggered via scheduler (direct call failed)"
        result := none, wallets_used := some cnt }
    | .response r =>
      if r.status = 200 then
        match r.jsonBody with
        | some (.jobj fields) =>
          { success := true
            message := "Job " ++ jobId ++ " executed successfully"
            result := some
              { transactions := dictGet "total_transactions" fields (.jint 0)
                tokens := dictGet "unique_tokens" fields (.jint 0)
                eth_value := dictGet "total_eth_value" fields (.jint 0)
                wallets_used := cnt }
            wallets_used := none }
        | _ =>
          { success := schedulerSuccess
            message := "Job " ++ jobId ++ " triggered via scheduler (direct call failed)"
            result := none, wallets_used := some cnt }
      else
        { success := schedulerSuccess
          message := "Job " ++ jobId ++ " triggered via scheduler (function call failed: HTTP "
            ++ toString r.status ++ ")"
          result := none, wallets_used := some cnt }
  else
    { success := schedulerSuccess
      message := "Job " ++ jobId ++ " triggered"
      result := none, wallets_used := some cnt }

/-- A job as held by the cloud scheduler: its name and the parsed JSON
payload of its HTTP target body. -/
structure CloudJob where
  name : String
  payload : List (String × Json)
  deriving Repr

/-- Python `dict.__setitem__`: replace the value of an existing key in
place, else append the new entry. -/
def setField (k : String) (v : Json) : List (String × Json) → List (String × Json)
  | [] => [(k, v)]
  | (k2, v2) :: rest => if k2 = k then (k, v) :: rest else (k2, v2) :: setField k v rest

/-- `current_payload.get("num_wallets", 0)` on a stored job. -/
def storedWallets (j : CloudJob) : Json :=
  dictGet "num_wallets" j.payload (.jint 0)

/-- The loop body of `update_all_jobs_wallet_count`: for each job, if its
stored `num_wallets` differs (Python `!=`) from the resolved count,
rewrite it and count the update; otherwise leave the job untouched. -/
def refreshJobs (maxCount : Json) : List CloudJob → List CloudJob × Nat
  | [] => ([], 0)
  | j :: rest =>
    let r := refreshJobs maxCount rest
    if pyEq (storedWallets j) maxCount then (j :: r.1, r.2)
    else ({ j with payload := setField "num_wallets" maxCount j.payload } :: r.1, r.2 + 1)

/-- `SchedulerService.update_all_jobs_wallet_count`, live path
(`app/services/scheduler.py` lines 172-212): resolve the wallet count
once (`walletFetch`), then iterate all jobs, rewriting stale
`num_wallets` values; returns the updated job list and
`updated_count`.  Per-job `client.update_job` exceptions are caught and
skip that job; the model takes the path on which every update call
succeeds. -/
def SchedulerService.update_all_jobs_wallet_count (walletFetch : FetchOutcome)
    (jobs : List CloudJob) : List CloudJob × Nat :=
  refreshJobs (SchedulerService.get_wallet_count walletFetch) jobs

/-! ## Theorems settling the claims -/

/-- C1: the claim as stated is false: not every 200 body outside the four
listed shapes yields the fallback 1000.  (i) In the route handler, the
body `+42` is not valid JSON (so it is none of the four shapes), yet the
text-parse fallback returns 42.  (ii) In both resolvers, the JSON body
`true` is a boolean — not an object, number or digit-string — yet Python's
`isinstance(True, int)` sends it through the bare-number branch and 1 is
returned. -/
theorem C1_counterexample :
    (SchedulerApi.get_wallet_count (.response ⟨200, none, "+42"⟩)).count = .jint 42 ∧
    SchedulerService.get_wallet_count (.response ⟨200, some (.jbool true), "true"⟩)
      = .jint 1 ∧
    (SchedulerApi.get_wallet_count (.response ⟨200, some (.jbool true), "true"⟩)).count
      = .jint 1 ∧
    (Json.jint 42 ≠ .jint 1000) ∧ (Json.jint 1 ≠ .jint 1000) := by
  refine ⟨rfl, rfl, rfl, ?_, ?_⟩ <;>
    · intro h
      injection h with h2
      omega

/-- C1 (amended): the normalization used by both resolvers returns, with
the stated precedence: the value of a `count` field; else the value of
the single field of a one-field object; else `int(b)` for a boolean
(1/0, since Python `bool` is an `int` subtype); else a bare number
truncated to an integer; else the value of a digit-string.  Every other
*valid-JSON* 200 body yields the fallback 1000.  A 200 body that is not
valid JSON yields 1000 in the service resolver, while the route handler
first tries `int()` on the stripped body text and returns that integer
when it succeeds, falling back to 1000 otherwise. -/
theorem C1_amended :
    (∀ fields v, lookupField "count" fields = some v →
        normalizeJson (.jobj fields) = v) ∧
    (∀ k v, normalizeJson (.jobj [(k, v)]) = v) ∧
    (∀ b, normalizeJson (.jbool b) = .jint (if b then 1 else 0)) ∧
    (∀ n : Int, normalizeJson (.jint n) = .jint n) ∧
    (∀ q : ℚ, normalizeJson (.jfloat q) = .jint (pyTrunc q)) ∧
    (∀ s, pyIsdigit s = true →
        normalizeJson (.jstr s) = .jint (digitStringVal s)) ∧
    (∀ s, pyIsdigit s = false → normalizeJson (.jstr s) = .jint 1000) ∧
    (normalizeJson .jnull = .jint 1000) ∧
    (∀ l, normalizeJson (.jarr l) = .jint 1000) ∧
    (∀ fields, lookupField "count" fields = none → fields.length ≠ 1 →
        normalizeJson (.jobj fields) = .jint 1000) ∧
    (∀ r : HttpResponse, r.status = 200 → ∀ b, r.jsonBody = some b →
        SchedulerService.get_wallet_count (.response r) = normalizeJson b ∧
        (SchedulerApi.get_wallet_count (.response r)).count = normalizeJson b) ∧
    (∀ r : HttpResponse, r.status = 200 → r.jsonBody = none →
        SchedulerService.get_wallet_count (.response r) = .jint 1000 ∧
        (∀ n, pyIntParse (pyStrip r.text) = some n →
            (SchedulerApi.get_wallet_count (.response r)).count = .jint n) ∧
        (pyIntParse (pyStrip r.text) = none →
            (SchedulerApi.get_wallet_count (.response r)).count = .jint 1000)) := by
  refine ⟨?_, ?_, fun b => rfl, fun n => rfl, fun q => rfl, ?_, ?_, rfl, fun l => rfl,
    ?_, ?_, ?_⟩
  · intro fields v h
    simp [normalizeJson, h]
  · intro k v
    by_cases h : k = "count" <;> simp [normalizeJson, lookupField, h]
  · intro s h
    simp [normalizeJson, h]
  · intro s h
    simp [normalizeJson, h]
  · intro fields hlook hlen
    match fields, hlen with
    | [], _ => simp [normalizeJson, hlook]
    | (k, v) :: (k2, v2) :: rest, _ => simp [normalizeJson, hlook]
    | [(k, v)], h => exact absurd rfl h
  · intro r h200 b hb
    constructor
    · simp [SchedulerService.get_wallet_count, h200, hb]
    · simp [SchedulerApi.get_wallet_count, h200, hb]
  · intro r h200 hb
    refine ⟨?_, ?_, ?_⟩
    · simp [SchedulerService.get_wallet_count, h200, hb]
    · intro n hn
      simp [SchedulerApi.get_wallet_count, h200, hb, hn]
    · intro hn
      simp [SchedulerApi.get_wallet_count, h200, hb, hn]

/-- C1 (amended) at concrete inputs: a `count` field wins over the other
fields, a digit-string parses, a non-digit string and a keyless
multi-field object fall back to 1000, a 200 body carrying JSON reaches
the normalizer, and a non-JSON 200 body text-parses in the route
handler. -/
theorem C1_amended_witness :
    normalizeJson (.jobj [("count", .jint 7), ("x", .jint 9)]) = .jint 7 ∧
    normalizeJson (.jobj [("total", .jint 250)]) = .jint 250 ∧
    normalizeJson (.jstr "123") = .jint 123 ∧
    normalizeJson (.jstr "12a") = .jint 1000 ∧
    normalizeJson (.jobj [("a", .jint 1), ("b", .jint 2)]) = .jint 1000 ∧
    SchedulerService.get_wallet_count
      (.response ⟨200, some (.jstr "123"), "\"123\""⟩) = normalizeJson (.jstr "123") ∧
    (SchedulerApi.get_wallet_count (.response ⟨200, none, " 042 "⟩)).count = .jint 42 := by
  refine ⟨C1_amended.1 _ (.jint 7) rfl, C1_amended.2.1 "total" (.jint 250),
    C1_amended.2.2.2.2.2.1 "123" rfl, C1_amended.2.2.2.2.2.2.1 "12a" rfl,
    C1_amended.2.2.2.2.2.2.2.2.2.1 [("a", .jint 1), ("b", .jint 2)] rfl (by decide),
    ((C1_amended.2.2.2.2.2.2.2.2.2.2.1 ⟨200, some (.jstr "123"), "\"123\""⟩ rfl
      (.jstr "123") rfl).1),
    ((C1_amended.2.2.2.2.2.2.2.2.2.2.2 ⟨200, none, " 042 "⟩ rfl rfl).2.1 42 rfl)⟩

/-- C2: the claim as stated is false: with two live 200 responses
available and both calls issued at the same instant (hence within any
TTL window), two successive `resolve()` calls issue two outbound HTTP
calls, and nothing is ever written to the cache — the resolver never
touches the `CacheService` and the `cached` decorator is not applied to
it. -/
theorem C2_counterexample :
    let resp : FetchOutcome := .response ⟨200, some (.jobj [("count", .jint 77)]), ""⟩
    let w0 : ResolverWorld := ⟨[resp, resp], [], 0, 0⟩
    let r1 := serviceResolveRun w0
    let r2 := serviceResolveRun r1.2
    r1.1 = .jint 77 ∧ r2.1 = .jint 77 ∧
    r2.2.httpCalls = 2 ∧ r2.2.cache = [] ∧ ¬r2.2.httpCalls = 1 := by
  exact ⟨rfl, rfl, rfl, rfl, by decide⟩

/-- C2 (amended): every `resolve()` call issues exactly one outbound HTTP
GET and neither reads nor writes the cache, so two calls — however close
together in time — issue exactly two outbound calls and leave the cache
state unchanged; no value, live or fallback, is ever cached. -/
theorem C2_amended : ∀ w : ResolverWorld,
    (serviceResolveRun w).2.httpCalls = w.httpCalls + 1 ∧
    (serviceResolveRun w).2.cache = w.cache ∧
    (serviceResolveRun w).2.now = w.now ∧
    (serviceResolveRun (serviceResolveRun w).2).2.httpCalls = w.httpCalls + 2 ∧
    (serviceResolveRun (serviceResolveRun w).2).2.cache = w.cache := by
  intro w
  match hw : w.pending with
  | [] =>
    simp [serviceResolveRun, hw]
  | o :: rest =>
    match rest with
    | [] => simp [serviceResolveRun, hw]
    | o2 :: rest2 => simp [serviceResolveRun, hw]

/-- C2 (amended) at a concrete world: one resolver call increments the
outbound-call counter and leaves the cache untouched. -/
theorem C2_amended_witness :
    (serviceResolveRun ⟨[], [], 5, 3⟩).2.httpCalls = 4 ∧
    (serviceResolveRun ⟨[], [], 5, 3⟩).2.cache = [] :=
  ⟨(C2_amended ⟨[], [], 5, 3⟩).1, (C2_amended ⟨[], [], 5, 3⟩).2.1⟩

/-- C3: the claim as stated is false: the resolvers pass object field
values through unchanged, so a 200 body `{"total": null}` makes the
service resolver return `null`, and a 200 body with the single field
`total = -5` makes the route handler report the negative count `-5`;
neither value is a non-negative integer. -/
theorem C3_counterexample :
    SchedulerService.get_wallet_count
      (.response ⟨200, some (.jobj [("total", .jnull)]), ""⟩) = .jnull ∧
    (SchedulerApi.get_wallet_count
      (.response ⟨200, some (.jobj [("total", .jint (-5))]), ""⟩)).count = .jint (-5) ∧
    Json.nonNegInt .jnull = false ∧ Json.nonNegInt (.jint (-5)) = false := by
  exact ⟨rfl, rfl, rfl, by decide⟩

/-- Normalization sends every risk-free body shape to a non-negative
integer. -/
theorem normalizeJson_nonNegInt (b : Json) (h : b.passThroughRisk = false) :
    (normalizeJson b).nonNegInt = true := by
  match b with
  | .jnull => rfl
  | .jbool bb => cases bb <;> rfl
  | .jint n =>
    simp [Json.passThroughRisk] at h
    simp [normalizeJson, Json.nonNegInt, h]
  | .jfloat q =>
    simp [Json.passThroughRisk] at h
    have h0 : (0 : Int) ≤ pyTrunc q := by
      simp [pyTrunc, h]
      exact Int.le_floor.mpr (by exact_mod_cast h)
    simp [normalizeJson, Json.nonNegInt, h0]
  | .jstr s =>
    by_cases hd : pyIsdigit s
    · simp [normalizeJson, hd, Json.nonNegInt]
    · simp [normalizeJson, hd, Json.nonNegInt]
  | .jarr l => rfl
  | .jobj fields => simp [Json.passThroughRisk] at h

/-- C3 (amended): both resolvers always produce a well-defined value (all
failure paths end in the fallback 1000), but the value is guaranteed to
be a non-negative integer only when no 200 JSON body is an object or a
negative bare number — object field values are returned exactly as
stored (possibly null, negative, a string, or nested), bare numbers are
truncated but keep their sign, and in the route handler a non-JSON 200
body whose stripped text `int()`-parses to a negative number yields that
negative value. -/
theorem C3_amended :
    (∀ o : FetchOutcome,
      (∀ r b, o = .response r → r.jsonBody = some b → b.passThroughRisk = false) →
      (SchedulerService.get_wallet_count o).nonNegInt = true) ∧
    (∀ o : FetchOutcome,
      (∀ r b, o = .response r → r.jsonBody = some b → b.passThroughRisk = false) →
      (∀ r n, o = .response r → r.jsonBody = none →
          pyIntParse (pyStrip r.text) = some n → 0 ≤ n) →
      ((SchedulerApi.get_wallet_count o).count).nonNegInt = true) := by
  constructor
  · intro o hsafe
    match o with
    | .failure msg => rfl
    | .response r =>
      by_cases h200 : r.status = 200
      · match hb : r.jsonBody with
        | none => simp [SchedulerService.get_wallet_count, h200, hb, Json.nonNegInt]
        | some b =>
          have := normalizeJson_nonNegInt b (hsafe r b rfl hb)
          simp [SchedulerService.get_wallet_count, h200, hb, this]
      · simp [SchedulerService.get_wallet_count, h200, Json.nonNegInt]
  · intro o hsafe htext
    match o with
    | .failure msg => rfl
    | .response r =>
      by_cases h200 : r.status = 200
      · match hb : r.jsonBody with
        | none =>
          match hp : pyIntParse (pyStrip r.text) with
          | some n =>
            have hn := htext r n rfl hb hp
            simp [SchedulerApi.get_wallet_count, h200, hb, hp, Json.nonNegInt, hn]
          | none =>
            simp [SchedulerApi.get_wallet_count, h200, hb, hp, Json.nonNegInt]
        | some b =>
          have := normalizeJson_nonNegInt b (hsafe r b rfl hb)
          simp [SchedulerApi.get_wallet_count, h200, hb, this]
      · simp [SchedulerApi.get_wallet_count, h200, Json.nonNegInt]

/-- C3 (amended) at concrete inputs: a network failure, a 500 response, a
digit-string 200 body and a non-JSON 200 body with non-negative text all
give non-negative integers. -/
theorem C3_amended_witness :
    (SchedulerService.get_wallet_count (.failure "timeout")).nonNegInt = true ∧
    (SchedulerService.get_wallet_count
      (.response ⟨200, some (.jstr "123"), "\"123\""⟩)).nonNegInt = true ∧
    ((SchedulerApi.get_wallet_count (.response ⟨500, none, "err"⟩)).count).nonNegInt
      = true ∧
    ((SchedulerApi.get_wallet_count (.response ⟨200, none, " 042 "⟩)).count).nonNegInt
      = true := by
  refine ⟨C3_amended.1 (.failure "timeout") (by intro r b h; cases h), ?_, ?_, ?_⟩
  · exact C3_amended.1 _ (by intro r b hr hb; cases hr; cases hb; rfl)
  · exact C3_amended.2 _ (by intro r b hr hb; cases hr; cases hb)
      (by intro r n hr hb hp; cases hr; cases hp)
  · exact C3_amended.2 _ (by intro r b hr hb; cases hr; cases hb)
      (by intro r n hr hb hp; cases hr;
          have : n = 42 := by
            have := hp.symm.trans (rfl : pyIntParse (pyStrip " 042 ") = some 42)
            injection this
          omega)

/-- C4: for every job-creation request — whatever `num_wallets` it
carries — the payload submitted to the job store has `num_wallets` equal
to the count freshly resolved by the service at call time (`f2`); the
caller-supplied value `n` and the route-level resolution `f1` do not
appear in the stored payload. -/
theorem C4_create_job_uses_resolved_count :
    ∀ (req : JobCreateRequest) (n : Json) (f1 f2 : FetchOutcome),
      (SchedulerApi.create_job { req with num_wallets := n } f1 f2 true).2
        = some { network := req.network
                 analysis_type := req.analysis_type
                 num_wallets := SchedulerService.get_wallet_count f2
                 days_back := req.days_back } ∧
      (SchedulerService.create_job { req with num_wallets := n } f2 true).2
        = some { network := req.network
                 analysis_type := req.analysis_type
                 num_wallets := SchedulerService.get_wallet_count f2
                 days_back := req.days_back } := by
  intro req n f1 f2
  exact ⟨rfl, rfl⟩

/-- C4 at a concrete input: a request asking for 3 wallets is stored with
the freshly resolved 4821. -/
theorem C4_create_job_uses_resolved_count_witness :
    (SchedulerApi.create_job
      { id := "j1", name := "J1", network := "base", analysis_type := "buy"
        schedule := "0 * * * *", num_wallets := .jint 3 }
      (.failure "w1") (.response ⟨200, some (.jobj [("count", .jint 4821)]), ""⟩)
      true).2
    = some { network := "base", analysis_type := "buy"
             num_wallets := .jint 4821, days_back := 1 } := by
  have h := C4_create_job_uses_resolved_count
    { id := "j1", name := "J1", network := "base", analysis_type := "buy"
      schedule := "0 * * * *" } (.jint 3) (.failure "w1")
    (.response ⟨200, some (.jobj [("count", .jint 4821)]), ""⟩)
  exact h.1

/-- C5: on every non-200 status and on every network/timeout error both
resolvers return the fallback 1000 (the route handler additionally
reporting `success=False`), and each resolver invocation consumes exactly
one outcome from the network — a single attempt with no retry. -/
theorem C5_fallback_without_retry :
    (∀ msg, SchedulerService.get_wallet_count (.failure msg) = .jint 1000 ∧
        (SchedulerApi.get_wallet_count (.failure msg)).count = .jint 1000 ∧
        (SchedulerApi.get_wallet_count (.failure msg)).success = false) ∧
    (∀ r : HttpResponse, r.status ≠ 200 →
        SchedulerService.get_wallet_count (.response r) = .jint 1000 ∧
        (SchedulerApi.get_wallet_count (.response r)).count = .jint 1000 ∧
        (SchedulerApi.get_wallet_count (.response r)).success = false) ∧
    (∀ (w : ResolverWorld) (o : FetchOutcome) (rest : List FetchOutcome),
        w.pending = o :: rest →
        (serviceResolveRun w).2.httpCalls = w.httpCalls + 1 ∧
        (serviceResolveRun w).2.pending = rest ∧
        (serviceResolveRun w).1 = SchedulerService.get_wallet_count o) := by
  refine ⟨fun msg => ⟨rfl, rfl, rfl⟩, ?_, ?_⟩
  · intro r h
    refine ⟨?_, ?_, ?_⟩ <;> simp [SchedulerService.get_wallet_count,
      SchedulerApi.get_wallet_count, h]
  · intro w o rest hw
    refine ⟨?_, ?_, ?_⟩ <;> simp [serviceResolveRun, hw]

/-- C5 at concrete inputs: a timeout and an HTTP 500 both degrade to 1000,
and a resolver run against a one-outcome stream consumes exactly that
outcome. -/
theorem C5_fallback_without_retry_witness :
    SchedulerService.get_wallet_count (.failure "timed out") = .jint 1000 ∧
    (SchedulerApi.get_wallet_count (.response ⟨500, none, "oops"⟩)).count
      = .jint 1000 ∧
    (serviceResolveRun ⟨[.failure "timed out"], [], 0, 0⟩).2.httpCalls = 1 ∧
    (serviceResolveRun ⟨[.failure "timed out"], [], 0, 0⟩).2.pending = [] := by
  refine ⟨(C5_fallback_without_retry.1 "timed out").1, ?_, ?_, ?_⟩
  · exact (C5_fallback_without_retry.2.1 ⟨500, none, "oops"⟩ (by decide)).2.1
  · exact (C5_fallback_without_retry.2.2 ⟨[.failure "timed out"], [], 0, 0⟩
      (.failure "timed out") [] rfl).1
  · exact (C5_fallback_without_retry.2.2 ⟨[.failure "timed out"], [], 0, 0⟩
      (.failure "timed out") [] rfl).2.1

/-- C6: the claim as stated is false: a malformed 200 body (here a
two-field object without `count`) makes the route handler fall back to
1000, yet the structured result reports `source="wallet-api"` and
`success=True` — not the `fallback` marker — so this degraded result is
indistinguishable from a live one. -/
theorem C6_counterexample :
    let r := SchedulerApi.get_wallet_count
      (.response ⟨200, some (.jobj [("a", .jint 1), ("b", .jint 2)]), ""⟩)
    r.count = .jint 1000 ∧ r.source = "wallet-api" ∧ r.success = true ∧
    r.source ≠ "fallback" := by
  exact ⟨rfl, rfl, rfl, by decide⟩

/-- C6 (amended): the `source="fallback"` marker (with `success=False`)
accompanies exactly the fallbacks caused by a non-200 status or a network
error; every 200 response — including one whose malformed body degraded
to 1000 — is reported with `source="wallet-api"` and `success=True`, so
callers cannot distinguish a malformed-body fallback from a live
value. -/
theorem C6_amended :
    (∀ msg, (SchedulerApi.get_wallet_count (.failure msg)).source = "fallback" ∧
        (SchedulerApi.get_wallet_count (.failure msg)).success = false ∧
        (SchedulerApi.get_wallet_count (.failure msg)).count = .jint 1000) ∧
    (∀ r : HttpResponse, r.status ≠ 200 →
        (SchedulerApi.get_wallet_count (.response r)).source = "fallback" ∧
        (SchedulerApi.get_wallet_count (.response r)).success = false ∧
        (SchedulerApi.get_wallet_count (.response r)).count = .jint 1000) ∧
    (∀ r : HttpResponse, r.status = 200 →
        (SchedulerApi.get_wallet_count (.response r)).source = "wallet-api" ∧
        (SchedulerApi.get_wallet_count (.response r)).success = true) := by
  refine ⟨fun msg => ⟨rfl, rfl, rfl⟩, ?_, ?_⟩
  · intro r h
    refine ⟨?_, ?_, ?_⟩ <;> simp [SchedulerApi.get_wallet_count, h]
  · intro r h
    constructor <;> simp [SchedulerApi.get_wallet_count, h]

/-- C6 (amended) at concrete inputs: a 503 response carries the fallback
marker; a 200 response with a malformed body does not. -/
theorem C6_amended_witness :
    (SchedulerApi.get_wallet_count (.response ⟨503, none, ""⟩)).source = "fallback" ∧
    (SchedulerApi.get_wallet_count
      (.response ⟨200, some (.jarr []), "[]"⟩)).source = "wallet-api" := by
  exact ⟨(C6_amended.2.1 ⟨503, none, ""⟩ (by decide)).1,
    (C6_amended.2.2 ⟨200, some (.jarr []), "[]"⟩ rfl).1⟩

/-- C7: whenever the direct crypto-function call fails (a raised
network/timeout error or a non-200 status), `run_now`'s `success` field
equals the scheduler-trigger result, whatever it was; the wallet-count
outcome never influences the `success` field. -/
theorem C7_direct_failure_nonfatal :
    ∀ (jobId : String) (wf : FetchOutcome) (ss : Bool) (direct : FetchOutcome),
      (∀ r, direct = .response r → r.status ≠ 200) →
      (SchedulerApi.run_job_now jobId wf ss true direct).success = ss ∧
      (∀ wf' : FetchOutcome,
        (SchedulerApi.run_job_now jobId wf' ss true direct).success = ss) := by
  intro jobId wf ss direct h
  have main : ∀ wf' : FetchOutcome,
      (SchedulerApi.run_job_now jobId wf' ss true direct).success = ss := by
    intro wf'
    match direct with
    | .failure msg => rfl
    | .response r =>
      have hr := h r rfl
      simp [SchedulerApi.run_job_now, hr]
  exact ⟨main wf, main⟩

/-- C7 at concrete inputs: with the wallet API timed out (resolver on
fallback), a timed-out direct call leaves a successful trigger reported
as success, and a 502 direct call leaves a failed trigger reported as
failure. -/
theorem C7_direct_failure_nonfatal_witness :
    (SchedulerApi.run_job_now "job-1" (.failure "wallet api timed out") true true
      (.failure "connect timeout")).success = true ∧
    (SchedulerApi.run_job_now "job-1" (.failure "wallet api timed out") false true
      (.response ⟨502, none, "bad gateway"⟩)).success = false := by
  exact ⟨(C7_direct_failure_nonfatal "job-1" (.failure "wallet api timed out") true
      (.failure "connect timeout") (fun r h => nomatch h)).1,
    (C7_direct_failure_nonfatal "job-1" (.failure "wallet api timed out") false
      (.response ⟨502, none, "bad gateway"⟩)
      (by intro r h; cases h; decide)).1⟩

/-- C8: the schedule update succeeds only when the supplied cron string,
stripped and split on whitespace, has exactly 5 tokens; any other token
count is answered with a 400 client error while the scheduler service is
never consulted. -/
theorem C8_update_schedule_cron_validation :
    ∀ (jobId s : String) (jobExists storeOk : Bool),
      (∀ m, (SchedulerApi.update_job_schedule jobId (some s) jobExists storeOk).1
          = .ok m → (pySplitWs (pyStrip s)).length = 5) ∧
      ((pySplitWs (pyStrip s)).length ≠ 5 →
        (∃ d, (SchedulerApi.update_job_schedule jobId (some s) jobExists storeOk).1
            = .httpError 400 d) ∧
        (SchedulerApi.update_job_schedule jobId (some s) jobExists storeOk).2 = []) := by
  intro jobId s jobExists storeOk
  by_cases hs : s = ""
  · subst hs
    exact ⟨fun m h => by simp [SchedulerApi.update_job_schedule] at h,
      fun _ => ⟨⟨"Schedule is required", rfl⟩, rfl⟩⟩
  · by_cases hl : (pySplitWs (pyStrip s)).length = 5
    · refine ⟨fun m _ => hl, fun hcontra => absurd hl hcontra⟩
    · constructor
      · intro m h
        simp [SchedulerApi.update_job_schedule, hs, hl] at h
      · intro _
        exact ⟨⟨"Cron expression must have exactly 5 parts",
          by simp [SchedulerApi.update_job_schedule, hs, hl]⟩,
          by simp [SchedulerApi.update_job_schedule, hs, hl]⟩

/-- C8 at concrete inputs: the 4-token string is rejected with a 400
before any scheduler-service call, and the successful update of a 5-token
string certifies the 5-token count. -/
theorem C8_update_schedule_cron_validation_witness :
    (∃ d, (SchedulerApi.update_job_schedule "job-1" (some "*/15 * * *") true true).1
        = ApiResult.httpError 400 d) ∧
    (SchedulerApi.update_job_schedule "job-1" (some "*/15 * * *") true true).2 = [] ∧
    (pySplitWs (pyStrip "*/15 * * * *")).length = 5 := by
  refine ⟨((C8_update_schedule_cron_validation "job-1" "*/15 * * *" true true).2
      (by decide)).1,
    ((C8_update_schedule_cron_validation "job-1" "*/15 * * *" true true).2
      (by decide)).2,
    (C8_update_schedule_cron_validation "job-1" "*/15 * * * *" true true).1
      ("Job job-1 schedule updated to: */15 * * * *") rfl⟩

/-- Python `==` on two ints is plain integer equality. -/
theorem pyEq_jint (a b : Int) : pyEq (.jint a) (.jint b) = decide (a = b) := by
  have h : pyEq (.jint a) (.jint b) = decide ((a : ℚ) = (b : ℚ)) := by
    simp [pyEq, pyNum]
  rw [h, decide_eq_decide]
  exact Int.cast_inj

/-- Looking up a key right after setting it yields the new value. -/
theorem lookupField_setField_self (k : String) (v : Json)
    (l : List (String × Json)) : lookupField k (setField k v l) = some v := by
  induction l with
  | nil => simp [setField, lookupField]
  | cons p rest ih =>
    obtain ⟨k2, v2⟩ := p
    by_cases h : k2 = k
    · simp [setField, lookupField, h]
    · simp [setField, lookupField, h, ih]

/-- The refresh loop updates exactly the stale jobs: the returned count
is the number of jobs whose stored `num_wallets` differs from the
resolved value, jobs already at that value are returned untouched, and
each stale job is returned with only its `num_wallets` rewritten to the
resolved value. -/
theorem refreshJobs_spec (m : Json) (jobs : List CloudJob) :
    (refreshJobs m jobs).2
      = (jobs.filter (fun j => !pyEq (storedWallets j) m)).length ∧
    List.Forall₂ (fun j j' =>
        (pyEq (storedWallets j) m = true → j' = j) ∧
        (pyEq (storedWallets j) m = false →
          j'.name = j.name ∧
          j'.payload = setField "num_wallets" m j.payload ∧
          storedWallets j' = m))
      jobs (refreshJobs m jobs).1 := by
  induction jobs with
  | nil => exact ⟨rfl, List.Forall₂.nil⟩
  | cons j rest ih =>
    by_cases h : pyEq (storedWallets j) m
    · refine ⟨?_, ?_⟩
      · simp [refreshJobs, h, List.filter_cons, ih.1]
      · have hlist : (refreshJobs m (j :: rest)).1 = j :: (refreshJobs m rest).1 := by
          simp [refreshJobs, h]
        rw [hlist]
        exact List.Forall₂.cons
          ⟨fun _ => rfl, fun hf => by rw [h] at hf; cases hf⟩ ih.2
    · have hb : pyEq (storedWallets j) m = false := by
        simpa using h
      refine ⟨?_, ?_⟩
      · simp [refreshJobs, hb, List.filter_cons, ih.1]
      · have hlist : (refreshJobs m (j :: rest)).1
            = { j with payload := setField "num_wallets" m j.payload }
              :: (refreshJobs m rest).1 := by
          simp [refreshJobs, hb]
        rw [hlist]
        refine List.Forall₂.cons ⟨?_, ?_⟩ ih.2
        · intro ht
          rw [ht] at hb
          cases hb
        · intro _
          refine ⟨rfl, rfl, ?_⟩
          simp [storedWallets, dictGet, lookupField_setField_self]

/-- C9: `update_all_jobs_wallet_count` resolves the wallet count once and
compares every job against that single value: it returns the number of
jobs whose stored `num_wallets` differed, leaves jobs already at the
resolved value untouched, and rewrites each stale job's `num_wallets` to
the resolved value. -/
theorem C9_refresh_all_updates_stale_jobs :
    ∀ (wf : FetchOutcome) (jobs : List CloudJob),
      (SchedulerService.update_all_jobs_wallet_count wf jobs).2
        = (jobs.filter (fun j =>
            !pyEq (storedWallets j) (SchedulerService.get_wallet_count wf))).length ∧
      List.Forall₂ (fun j j' =>
          (pyEq (storedWallets j) (SchedulerService.get_wallet_count wf) = true →
            j' = j) ∧
          (pyEq (storedWallets j) (SchedulerService.get_wallet_count wf) = false →
            j'.name = j.name ∧
            j'.payload = setField "num_wallets"
              (SchedulerService.get_wallet_count wf) j.payload ∧
            storedWallets j' = SchedulerService.get_wallet_count wf))
        jobs (SchedulerService.update_all_jobs_wallet_count wf jobs).1 := by
  intro wf jobs
  exact refreshJobs_spec (SchedulerService.get_wallet_count wf) jobs

/-- C9 at a concrete input: with the live count resolved to 500 and three
stored jobs of which one is already at 500 and two are stale, the
operation reports 2 jobs updated. -/
theorem C9_refresh_all_updates_stale_jobs_witness :
    (SchedulerService.update_all_jobs_wallet_count
      (.response ⟨200, some (.jobj [("count", .jint 500)]), ""⟩)
      [⟨"a", [("num_wallets", .jint 500)]⟩,
       ⟨"b", [("num_wallets", .jint 100)]⟩,
       ⟨"c", [("num_wallets", .jint 250)]⟩]).2 = 2 := by
  have h := (C9_refresh_all_updates_stale_jobs
    (.response ⟨200, some (.jobj [("count", .jint 500)]), ""⟩)
    [⟨"a", [("num_wallets", .jint 500)]⟩,
     ⟨"b", [("num_wallets", .jint 100)]⟩,
     ⟨"c", [("num_wallets", .jint 250)]⟩]).1
  rw [h]
  simp [List.filter_cons, storedWallets, dictGet, lookupField,
    SchedulerService.get_wallet_count, normalizeJson, pyEq_jint]

/-- C10: the claim as stated is false: a direct call that returns HTTP
200 with a body that is not a JSON object (here plain text, and a bare
number) takes the exception path (`response.json()` or `result.get`
raises), so a failed JobStore trigger is reported as `success=False` —
the 200 direct call does not mask it unconditionally. -/
theorem C10_counterexample :
    (SchedulerApi.run_job_now "job-1" (.failure "wallet down") false true
      (.response ⟨200, none, "plain text"⟩)).success = false ∧
    (SchedulerApi.run_job_now "job-1" (.failure "wallet down") false true
      (.response ⟨200, some (.jint 5), "5"⟩)).success = false := by
  exact ⟨rfl, rfl⟩

/-- C10 (amended): a direct call returning HTTP 200 with a JSON-object
body makes the operation report `success=True` unconditionally, masking
even a failed JobStore trigger; a 200 response whose body is not a JSON
object falls into the exception path and reports the trigger's own
result. -/
theorem C10_amended :
    (∀ (jobId : String) (wf : FetchOutcome) (ss : Bool) (r : HttpResponse)
        (fields : List (String × Json)),
      r.status = 200 → r.jsonBody = some (.jobj fields) →
      (SchedulerApi.run_job_now jobId wf ss true (.response r)).success = true) ∧
    (∀ (jobId : String) (wf : FetchOutcome) (ss : Bool) (r : HttpResponse),
      r.status = 200 → (∀ fields, r.jsonBody ≠ some (.jobj fields)) →
      (SchedulerApi.run_job_now jobId wf ss true (.response r)).success = ss) := by
  constructor
  · intro jobId wf ss r fields h200 hb
    simp [SchedulerApi.run_job_now, h200, hb]
  · intro jobId wf ss r h200 hb
    match hjb : r.jsonBody with
    | none => simp [SchedulerApi.run_job_now, h200, hjb]
    | some b =>
      match b with
      | .jobj fields => exact absurd hjb (hb fields)
      | .jnull => simp [SchedulerApi.run_job_now, h200, hjb]
      | .jbool bb => simp [SchedulerApi.run_job_now, h200, hjb]
      | .jint n => simp [SchedulerApi.run_job_now, h200, hjb]
      | .jfloat q => simp [SchedulerApi.run_job_now, h200, hjb]
      | .jstr str => simp [SchedulerApi.run_job_now, h200, hjb]
      | .jarr l => simp [SchedulerApi.run_job_now, h200, hjb]

/-- C10 (amended) at concrete inputs: a 200 JSON-object direct response
masks a failed trigger as success; a 200 array-body response does not. -/
theorem C10_amended_witness :
    (SchedulerApi.run_job_now "job-1" (.failure "w") false true
      (.response ⟨200, some (.jobj [("total_transactions", .jint 12)]),
        "body"⟩)).success = true ∧
    (SchedulerApi.run_job_now "job-1" (.failure "w") true true
      (.response ⟨200, some (.jarr []), "[]"⟩)).success = true := by
  exact ⟨C10_amended.1 "job-1" (.failure "w") false
      ⟨200, some (.jobj [("total_transactions", .jint 12)]), "body"⟩
      [("total_transactions", .jint 12)] rfl rfl,
    C10_amended.2 "job-1" (.failure "w") true ⟨200, some (.jarr []), "[]"⟩ rfl
      (by intro fields h; injection h with h2; cases h2)⟩
